import Mathlib

/-!
Verification of the resilient Shopify API access layer of the landing-page
proxy repository: a shallow embedding of the ID translator
(`src/app/src/utils/id-conversion.utils.ts`), the retrying API client
(`ShopifyApiProvider.makeApiCall` and friends), the customer and product
services, the proxy handler's fallback chain, and the singleton provider.

JavaScript strings are modelled as `List Char`, JavaScript numbers that can
be `NaN` as `Option Int` (`none` = `NaN`), thrown exceptions as `Except`,
and the stateful retry loop as a fuel-indexed recursion that also records
the number of thunk invocations and the backoff sleeps it performs.
-/

deriving instance DecidableEq for Except

namespace LandingProxy

/-- A JavaScript number that may be `NaN` (`none` models `NaN`). -/
abbrev JsNum := Option Int

/-- Truthiness-based string defaulting: models the JS idiom `s || d`
for an optional string `s` (absent or empty means falsy). -/
def jsOrStr (o : Option String) (d : String) : String :=
  match o with
  | some s => if s = "" then d else s
  | none => d

/-- Truthiness-based defaulting for a plain JS string: `s || d`. -/
def jsOrStrS (s d : String) : String :=
  if s = "" then d else s

/-- Whitespace characters skipped by `parseInt` / trimmed by `trim`
(the common JS whitespace set). -/
def jsWhitespaceChar (c : Char) : Bool :=
  c = ' ' || c = '\t' || c = '\n' || c = '\r' || c = '\x0b' || c = '\x0c'

/-- Numeric value of a decimal digit character. -/
def digitVal (c : Char) : Nat := c.toNat - 48

/-- Value of a list of decimal digit characters, most significant first. -/
def parseDigits (cs : List Char) : Nat :=
  cs.foldl (fun a c => a * 10 + digitVal c) 0

/-- Model of JavaScript `parseInt(s, 10)`: skip leading whitespace, accept an
optional sign, read the longest prefix of decimal digits, and yield `NaN`
(`none`) when no digit is found. -/
def parseIntJS (s : List Char) : JsNum :=
  let s1 := s.dropWhile jsWhitespaceChar
  match s1 with
  | [] => none
  | c :: rest =>
    if c = '-' then
      let ds := rest.takeWhile Char.isDigit
      if ds = [] then none else some (-(parseDigits ds : Int))
    else if c = '+' then
      let ds := rest.takeWhile Char.isDigit
      if ds = [] then none else some ((parseDigits ds : Int))
    else
      let ds := s1.takeWhile Char.isDigit
      if ds = [] then none else some ((parseDigits ds : Int))

/-- Decimal digit character for a digit value. -/
def digitChar (d : Nat) : Char := Char.ofNat (48 + d)

/-- Decimal rendering of a non-negative JS number, as produced by the
template literal interpolation of an integer. -/
def natToChars (n : Nat) : List Char :=
  if n = 0 then ['0'] else (Nat.digits 10 n).reverse.map digitChar

/-- Model of JavaScript `s.split('/')`: always yields at least one
(possibly empty) segment. -/
def splitOnSlash : List Char → List (List Char)
  | [] => [[]]
  | c :: cs =>
    if c = '/' then [] :: splitOnSlash cs
    else
      match splitOnSlash cs with
      | [] => [[c]]
      | s :: rest => (c :: s) :: rest

/-- `toGraphQLId` from `id-conversion.utils.ts`: formats
`gid://shopify/<resourceType>/<restId>`. -/
def toGraphQLId (restId : Nat) (resourceType : List Char) : List Char :=
  "gid://shopify/".data ++ resourceType ++ ('/' :: natToChars restId)

/-- `toRestId` from `id-conversion.utils.ts`: splits on `/`, takes the last
segment, throws `Invalid GraphQL ID format` only when that segment is empty,
and otherwise returns `parseInt(segment, 10)` (which may be `NaN`). -/
def toRestId (graphqlId : List Char) : Except (List Char) JsNum :=
  let parts := splitOnSlash graphqlId
  let id := parts.getLastD []
  if id = [] then
    .error ("Invalid GraphQL ID format: ".data ++ graphqlId)
  else
    .ok (parseIntJS id)

example : toRestId "gid://shopify/Product/456".data = .ok (some 456) := by decide
example : toRestId "gid://shopify/Product/abc".data = .ok none := by decide
example : toRestId "gid://shopify/Product/".data =
    .error ("Invalid GraphQL ID format: gid://shopify/Product/".data) := by decide

/-- The `errors` field of an upstream response body: either an array of
messages or a single raw string (`shopify-api-provider.ts`,
`validateResponse`). -/
abbrev JsErrors := Sum (List String) String

/-- The `response` property attached to an error thrown by the transport:
optional HTTP `status` and raw `data` body. -/
structure ErrResponse where
  status : Option Int := none
  data : Option String := none
deriving Repr, DecidableEq

/-- A thrown JavaScript error as inspected by the retry loop: a `message`
and an optional attached HTTP `response`. -/
structure JsError where
  message : String := ""
  response : Option ErrResponse := none
deriving Repr, DecidableEq

/-- The `ShopifyApiError` class: message, optional HTTP status code and
optional raw response body. -/
structure ShopifyApiError where
  message : String
  statusCode : Option Int := none
  response : Option String := none
deriving Repr, DecidableEq

/-- A duck-typed value returned by an API thunk, carrying exactly the
structure the retry loop inspects: its truthiness, whether it is an object
with a `body` field, and its top-level `errors` field. -/
structure ApiValue where
  truthy : Bool := true
  hasBodyField : Bool := false
  errors : Option JsErrors := none
  payload : String := ""
deriving Repr, DecidableEq

/-- `array.join(', ')`. -/
def joinComma (ss : List String) : String := String.intercalate ", " ss

/-- `validateResponse` from `shopify-api-provider.ts`, with the thrown
`ShopifyApiError` modelled as `some err`: throws on a falsy response and on
a truthy `errors` field (joining an array, passing a string through). -/
def validateResponse (v : ApiValue) (operation : String) : Option ShopifyApiError :=
  if !v.truthy then some ⟨"No response received for " ++ operation, none, none⟩
  else
    match v.errors with
    | some (Sum.inl arr) =>
      some ⟨"Shopify API error for " ++ operation ++ ": " ++ joinComma arr, none, none⟩
    | some (Sum.inr s) =>
      some ⟨"Shopify API error for " ++ operation ++ ": " ++ s, none, none⟩
    | none => none

/-- `isClientError`: `error?.response?.status >= 400 && < 500`; an absent
response or status makes both comparisons false. -/
def isClientError (e : JsError) : Bool :=
  match e.response with
  | some r =>
    match r.status with
    | some s => decide (400 ≤ s) && decide (s < 500)
    | none => false
  | none => false

/-- `createShopifyApiError`: wraps the underlying error with the operation
name, defaulting a falsy message, and lifts the attached status and raw
response data. -/
def createShopifyApiError (e : JsError) (operation : String) : ShopifyApiError :=
  { message := operation ++ " failed: " ++ (if e.message = "" then "Unknown API error" else e.message)
    statusCode := e.response.bind ErrResponse.status
    response := e.response.bind ErrResponse.data }

/-- The retry policy: `{maxRetries, baseDelay, maxDelay}`. -/
structure RetryConfig where
  maxRetries : Nat
  baseDelay : Nat
  maxDelay : Nat
deriving Repr, DecidableEq

/-- Observable outcome of one `makeApiCall` run: the returned value or the
thrown `ShopifyApiError`, the number of thunk invocations, and the list of
backoff sleeps performed (in ms, in order). -/
structure RunResult where
  result : Except ShopifyApiError ApiValue
  calls : Nat
  sleeps : List Nat
deriving Repr, DecidableEq

/-- One iteration of the `try` block of `makeApiCall`: run the thunk for
this attempt; on a returned object with a `body` field run
`validateResponse`, whose thrown `ShopifyApiError` (carrying no attached
response) lands in the same `catch` as a thunk failure. -/
def tryOnce (apiCall : Nat → Except JsError ApiValue) (operation : String)
    (attempt : Nat) : Except JsError ApiValue :=
  match apiCall attempt with
  | .error e => .error e
  | .ok v =>
    match (if v.truthy && v.hasBodyField then validateResponse v operation else none) with
    | some verr => .error { message := verr.message, response := none }
    | none => .ok v

/-- The exponential backoff with hard ceiling:
`Math.min(baseDelay * 2 ** attempt, maxDelay)`. -/
def backoffDelay (cfg : RetryConfig) (attempt : Nat) : Nat :=
  min (cfg.baseDelay * 2 ^ attempt) cfg.maxDelay

/-- The `for (attempt = 0; attempt <= maxRetries; attempt++)` loop of
`makeApiCall`, as a fuel-indexed recursion (`fuel = maxRetries + 1 - attempt`
at the top-level call, so the zero-fuel case is unreachable): a success
returns immediately; a client error or an exhausted budget throws the
wrapped error; otherwise sleep `backoffDelay` and retry. -/
def attemptLoop (cfg : RetryConfig) (apiCall : Nat → Except JsError ApiValue)
    (operation : String) : Nat → Nat → RunResult
  | _, 0 => ⟨.error (createShopifyApiError {} operation), 0, []⟩
  | attempt, fuel + 1 =>
    match tryOnce apiCall operation attempt with
    | .ok v => ⟨.ok v, 1, []⟩
    | .error e =>
      if isClientError e then ⟨.error (createShopifyApiError e operation), 1, []⟩
      else if attempt = cfg.maxRetries then ⟨.error (createShopifyApiError e operation), 1, []⟩
      else
        let r := attemptLoop cfg apiCall operation (attempt + 1) fuel
        ⟨r.result, r.calls + 1, backoffDelay cfg attempt :: r.sleeps⟩

/-- `ShopifyApiProvider.makeApiCall`: runs the retry loop from attempt 0. -/
def makeApiCall (cfg : RetryConfig) (apiCall : Nat → Except JsError ApiValue)
    (operation : String) : RunResult :=
  attemptLoop cfg apiCall operation 0 (cfg.maxRetries + 1)

/-- One GraphQL error object (only its `message` is consumed). -/
structure GraphQLError where
  message : String
deriving Repr, DecidableEq

/-- A transport-level GraphQL response body: optional `errors` list and the
`data` envelope. -/
structure GraphQLBody where
  errors : Option (List GraphQLError) := none
  data : ApiValue := {}
deriving Repr, DecidableEq

/-- The thunk `makeGraphQLCall` hands to `makeApiCall`: perform the
transport query; when the body carries a non-empty error list, throw a
plain `Error` (no attached HTTP response) aggregating the messages with
`', '`; otherwise return `response.body.data`. -/
def graphQLThunk (transport : Nat → Except JsError GraphQLBody) (k : Nat) :
    Except JsError ApiValue :=
  match transport k with
  | .error e => .error e
  | .ok body =>
    match body.errors with
    | some es =>
      if es.length > 0 then
        .error { message := "GraphQL Error: " ++ joinComma (es.map GraphQLError.message)
                 response := none }
      else .ok body.data
    | none => .ok body.data

/-- `ShopifyApiProvider.makeGraphQLCall`: the GraphQL thunk run through the
retry wrapper. -/
def makeGraphQLCall (cfg : RetryConfig) (transport : Nat → Except JsError GraphQLBody)
    (operation : String) : RunResult :=
  makeApiCall cfg (graphQLThunk transport) operation

/-- A customer metafield record as returned by the REST metafields
endpoint (`namespace`, `key`, `value`; the id is irrelevant here). -/
structure ShopifyMetafieldRec where
  nspace : String
  key : String
  value : String
deriving Repr, DecidableEq

/-- The structured personalization metafields
(`CustomerMetafields` in `customer-service.ts`). -/
structure CustomerMetafields where
  profile_image_url : Option String := none
  assigned_product_id : Option String := none
deriving Repr, DecidableEq

/-- `parseMetafields`: keeps only the `personalization` namespace and the
two recognized keys, later entries overwriting earlier ones. -/
def parseMetafields (metafields : List ShopifyMetafieldRec) : CustomerMetafields :=
  metafields.foldl
    (fun acc m =>
      if m.nspace = "personalization" then
        match m.key with
        | "profile_image_url" => { acc with profile_image_url := some m.value }
        | "assigned_product_id" => { acc with assigned_product_id := some m.value }
        | _ => acc
      else acc)
    {}

/-- `getCustomerMetafields`: the metafields fetch (already wrapped by the
retry client, so its failure is a `ShopifyApiError`) with the fail-open
`catch` that converts any error into an empty metafield set; an absent
`metafields` field in the body defaults to `[]`. -/
def getCustomerMetafields
    (fetch : Except ShopifyApiError (Option (List ShopifyMetafieldRec))) :
    CustomerMetafields :=
  match fetch with
  | .error _ => {}
  | .ok mfs => parseMetafields (mfs.getD [])

/-- The upstream customer payload consumed by `getCustomerById`. -/
structure ShopifyCustomerRec where
  id : Int
  first_name : Option String := none
  email : Option String := none
deriving Repr, DecidableEq

/-- The assembled `CustomerData` record. -/
structure CustomerData where
  id : Int
  first_name : String
  email : String
  profile_image_url : Option String := none
  assigned_product_id : Option JsNum := none
deriving Repr, DecidableEq

/-- `CustomerService.getCustomerById`, over the outcome of the customer
fetch (`body?.customer`, absent modelled as `none`) and the outcome of the
metafields fetch: a 404 from the API maps to `none` (not found), any other
fetch error propagates, and the metafield read is fail-open. -/
def getCustomerById
    (customerFetch : Except ShopifyApiError (Option ShopifyCustomerRec))
    (metafieldsFetch : Except ShopifyApiError (Option (List ShopifyMetafieldRec))) :
    Except ShopifyApiError (Option CustomerData) :=
  match customerFetch with
  | .error e => if e.statusCode = some 404 then .ok none else .error e
  | .ok none => .ok none
  | .ok (some customer) =>
    let metafields := getCustomerMetafields metafieldsFetch
    .ok (some
      { id := customer.id
        first_name := jsOrStr customer.first_name ""
        email := jsOrStr customer.email ""
        profile_image_url := metafields.profile_image_url
        assigned_product_id :=
          match metafields.assigned_product_id with
          | some s => if s = "" then none else some (parseIntJS s.data)
          | none => none })

/-- A GraphQL product variant node (`price`, `availableForSale`). -/
structure GQLVariant where
  price : Option String := none
  availableForSale : Option Bool := none
deriving Repr, DecidableEq

/-- A GraphQL product image node. -/
structure GQLImage where
  url : Option String := none
deriving Repr, DecidableEq

/-- A GraphQL product payload as consumed by
`transformGraphQLProductData`; the `variants`/`images` connections are
modelled as optional lists of nodes. -/
structure GQLProduct where
  id : List Char
  title : Option String := none
  handle : Option String := none
  status : Option String := none
  variants : Option (List GQLVariant) := none
  images : Option (List GQLImage) := none
deriving Repr, DecidableEq

/-- The internal `ProductData` record; `id` is a JS number because it comes
from `toRestId` (and can be `NaN`). -/
structure ProductData where
  id : JsNum
  title : String
  handle : String
  price : String
  image_url : Option String := none
  available : Bool
deriving Repr, DecidableEq

/-- `ProductService.transformGraphQLProductData` (GraphQL variant of the
product service): first variant and image via optional chaining, falsy
defaults for title/handle/price, and
`available = status === 'ACTIVE' && (variant?.availableForSale ?? false)`.
`toRestId` on the global id can throw, which propagates. -/
def transformGraphQLProductData (product : GQLProduct) : Except (List Char) ProductData :=
  let variant := product.variants.bind List.head?
  let image := product.images.bind List.head?
  match toRestId product.id with
  | .error m => .error m
  | .ok idNum =>
    .ok { id := idNum
          title := jsOrStr product.title "Untitled Product"
          handle := jsOrStr product.handle ""
          price := jsOrStr (variant.bind GQLVariant.price) "0.00"
          image_url := image.bind GQLImage.url
          available := (product.status == some "ACTIVE")
            && ((variant.bind GQLVariant.availableForSale).getD false) }

/-- The `AssignedProduct` shape returned to the proxy handler. -/
structure AssignedProduct where
  id : Int
  title : String
  image_url : String
  price : String
  handle : String
deriving Repr, DecidableEq

/-- `ProductService.getDefaultProductData`: the hardcoded sentinel
fallback product. -/
def getDefaultProductData : AssignedProduct :=
  { id := 0
    title := "Featured Product"
    image_url := ""
    price := "0.00"
    handle := "featured-product" }

/-- `ProxyHandler.getDefaultProfileImage`. -/
def getDefaultProfileImage : String := "/assets/default-avatar.png"

/-- Model of JS `s.trim()` over the whitespace set. -/
def jsTrim (s : List Char) : List Char :=
  ((s.dropWhile jsWhitespaceChar).reverse.dropWhile jsWhitespaceChar).reverse

/-- Hex digit recognizer for `Number('0x…')` literals. -/
def isHexDigitCh (c : Char) : Bool :=
  c.isDigit || ('a' ≤ c && c ≤ 'f') || ('A' ≤ c && c ≤ 'F')

/-- Non-empty all-decimal-digits recognizer. -/
def isDigits (cs : List Char) : Bool :=
  !cs.isEmpty && cs.all Char.isDigit

/-- Mantissa of a decimal literal: `d+`, `d+.d*` or `.d+`. -/
def decimalMantissa (cs : List Char) : Bool :=
  match cs.splitOn '.' with
  | [a] => isDigits a
  | [a, b] => (isDigits a && (b.isEmpty || isDigits b)) || (a.isEmpty && isDigits b)
  | _ => false

/-- Optionally signed digit string (exponent part of a literal). -/
def signedDigits (cs : List Char) : Bool :=
  match cs with
  | '+' :: r => isDigits r
  | '-' :: r => isDigits r
  | r => isDigits r

/-- Decimal or scientific literal: mantissa with optional `e`/`E` exponent. -/
def sciDecimal (cs : List Char) : Bool :=
  match cs.findIdx? (fun c => c = 'e' || c = 'E') with
  | none => decimalMantissa cs
  | some i => decimalMantissa (cs.take i) && signedDigits (cs.drop (i + 1))

/-- Unsigned body of a numeric literal: `Infinity`, a radix-prefixed
integer, or a (scientific) decimal. -/
def unsignedNumeric (cs : List Char) : Bool :=
  cs = "Infinity".data || sciDecimal cs

/-- Whether `Number(s)` on the (already trimmed) string is not `NaN`:
the empty string converts to 0; radix prefixes admit no sign. -/
def validNumericLiteral (cs : List Char) : Bool :=
  match cs with
  | [] => true
  | '+' :: r => unsignedNumeric r
  | '-' :: r => unsignedNumeric r
  | '0' :: c :: r =>
    if c = 'x' || c = 'X' then !r.isEmpty && r.all isHexDigitCh
    else if c = 'o' || c = 'O' then !r.isEmpty && r.all (fun d => '0' ≤ d && d ≤ '7')
    else if c = 'b' || c = 'B' then !r.isEmpty && r.all (fun d => d = '0' || d = '1')
    else unsignedNumeric cs
  | _ => unsignedNumeric cs

/-- `validateUserId` from the shared types module:
`typeof userId === 'string' && userId.trim().length > 0 && !isNaN(Number(userId))`. -/
def validateUserId (userId : List Char) : Bool :=
  !(jsTrim userId).isEmpty && validNumericLiteral (jsTrim userId)

/-- The `UserProfile` payload of a successful proxy response. -/
structure UserProfile where
  user_id : String
  first_name : String
  profile_image_url : String
  assigned_product : AssignedProduct
deriving Repr, DecidableEq

/-- The `{success, data?, error?}` JSON envelope. -/
structure ProxyResponse where
  success : Bool
  data : Option UserProfile := none
  error : Option String := none
deriving Repr, DecidableEq

/-- An HTTP reply: status code plus JSON envelope. -/
structure HttpReply where
  status : Nat
  body : ProxyResponse
deriving Repr, DecidableEq

/-- The assigned-product step of the handler: `getAssignedProduct` is
called only when `customerData.assigned_product_id` is truthy (present,
not `NaN`, not 0). -/
def resolveAssigned (customerData : CustomerData)
    (assignedLookup : Int → Except JsError (Option AssignedProduct)) :
    Except JsError (Option AssignedProduct) :=
  match customerData.assigned_product_id with
  | some (some n) => if n ≠ 0 then assignedLookup n else .ok none
  | _ => .ok none

/-- `ProxyHandler.handleUserLanding`, over the inbound `user_id` query
parameter and the outcomes of its collaborator calls: 400 on a missing or
invalid id, 404 when the customer lookup is absent, 500 on a thrown error
(generic message in production), and otherwise the assigned → default →
hardcoded-sentinel product fallback chain with display-name and avatar
defaults. `getDefaultProduct` swallows its own errors, hence plain
`Option`. -/
def handleUserLanding (user_id : Option String)
    (customerLookup : Except JsError (Option CustomerData))
    (assignedLookup : Int → Except JsError (Option AssignedProduct))
    (defaultLookup : Option AssignedProduct)
    (isProduction : Bool) : HttpReply :=
  match user_id with
  | none => ⟨400, { success := false, error := some "Invalid or missing user_id parameter" }⟩
  | some uid =>
    if uid = "" || !validateUserId uid.data then
      ⟨400, { success := false, error := some "Invalid or missing user_id parameter" }⟩
    else
      match customerLookup with
      | .error err =>
        ⟨500, { success := false
                error := some (if isProduction then "Internal server error" else err.message) }⟩
      | .ok none => ⟨404, { success := false, error := some "Customer not found" }⟩
      | .ok (some customerData) =>
        match resolveAssigned customerData assignedLookup with
        | .error err =>
          ⟨500, { success := false
                  error := some (if isProduction then "Internal server error" else err.message) }⟩
        | .ok assigned0 =>
          let assigned1 := match assigned0 with
            | some p => some p
            | none => defaultLookup
          let assignedProduct := assigned1.getD getDefaultProductData
          ⟨200, { success := true
                  data := some
                    { user_id := uid
                      first_name := jsOrStrS customerData.first_name "Valued Customer"
                      profile_image_url := jsOrStr customerData.profile_image_url getDefaultProfileImage
                      assigned_product := assignedProduct } }⟩

/-- The API configuration consumed by the provider. -/
structure ShopifyApiConfig where
  apiKey : String
  apiSecretKey : String
  scopes : List String
  hostName : String
  apiVersion : Option String := none
deriving Repr, DecidableEq

/-- A partial retry configuration (the optional constructor argument). -/
structure PartialRetryConfig where
  maxRetries : Option Nat := none
  baseDelay : Option Nat := none
  maxDelay : Option Nat := none
deriving Repr, DecidableEq

/-- The object-spread merge `{maxRetries: 3, baseDelay: 1000,
maxDelay: 10000, ...retryConfig}`. -/
def mergeRetryConfig (retryConfig : Option PartialRetryConfig) : RetryConfig :=
  match retryConfig with
  | none => ⟨3, 1000, 10000⟩
  | some p => ⟨p.maxRetries.getD 3, p.baseDelay.getD 1000, p.maxDelay.getD 10000⟩

/-- `validateConfiguration`: all four required fields truthy (a non-empty
scope list). -/
def validateConfiguration (c : ShopifyApiConfig) : Bool :=
  c.apiKey ≠ "" && c.apiSecretKey ≠ "" && c.scopes.length > 0 && c.hostName ≠ ""

/-- A constructed `ShopifyApiProvider` instance: the stored configuration. -/
structure Provider where
  apiConfig : ShopifyApiConfig
  retryConfig : RetryConfig
deriving Repr, DecidableEq

/-- The private `ShopifyApiProvider` constructor: merge the retry defaults,
validate, and throw `ShopifyApiError` on missing required fields. -/
def constructProvider (apiConfig : ShopifyApiConfig)
    (retryConfig : Option PartialRetryConfig) : Except ShopifyApiError Provider :=
  if validateConfiguration apiConfig then
    .ok ⟨apiConfig, mergeRetryConfig retryConfig⟩
  else
    .error ⟨"Invalid Shopify API configuration: missing required fields", none, none⟩

/-- `loadDefaultConfig`: environment variables with falsy defaults. -/
def loadDefaultConfig (env : String → Option String) : ShopifyApiConfig :=
  { apiKey := jsOrStr (env "SHOPIFY_API_KEY") ""
    apiSecretKey := jsOrStr (env "SHOPIFY_API_SECRET") ""
    scopes := (jsOrStr (env "SHOPIFY_SCOPES") "read_customers,read_products").splitOn ","
    hostName := jsOrStr (env "SHOPIFY_APP_URL") "localhost:3000" }

/-- `ShopifyApiProvider.getInstance`, with the static `instance` field
modelled as explicit state (`Option Provider`): an existing instance is
returned untouched (arguments ignored); otherwise a new instance is
constructed from the given or environment-loaded configuration and
stored. -/
def getInstance (state : Option Provider) (apiConfig : Option ShopifyApiConfig)
    (retryConfig : Option PartialRetryConfig) (env : String → Option String) :
    Except ShopifyApiError (Provider × Option Provider) :=
  match state with
  | some inst => .ok (inst, some inst)
  | none =>
    let cfg := apiConfig.getD (loadDefaultConfig env)
    match constructProvider cfg retryConfig with
    | .error e => .error e
    | .ok inst => .ok (inst, some inst)

/-- `ShopifyApiProvider.reset`: clears the singleton. -/
def resetProvider (_ : Option Provider) : Option Provider := none

/-- The ten decimal digit characters. -/
def decimalDigitChars : List Char := ['0', '1', '2', '3', '4', '5', '6', '7', '8', '9']

/-- A sample GraphQL product payload: active, one sellable variant. -/
def sampleGQLProduct : GQLProduct :=
  { id := "gid://shopify/Product/7".data
    title := some "T"
    handle := some "h"
    status := some "ACTIVE"
    variants := some [{ price := some "9.99", availableForSale := some true }]
    images := some [] }

/-- The transform of `sampleGQLProduct`. -/
def sampleProductData : ProductData :=
  { id := some 7
    title := "T"
    handle := "h"
    price := "9.99"
    image_url := none
    available := true }

/-- A sample API configuration with all required fields present. -/
def sampleApiConfig : ShopifyApiConfig :=
  { apiKey := "k", apiSecretKey := "s", scopes := ["read_customers"], hostName := "host" }

/-- A different sample API configuration. -/
def otherApiConfig : ShopifyApiConfig :=
  { apiKey := "k2", apiSecretKey := "s2", scopes := ["read_products"], hostName := "host2" }

/-- The provider instance constructed from `sampleApiConfig` with default
retry settings. -/
def sampleProvider : Provider := ⟨sampleApiConfig, ⟨3, 1000, 10000⟩⟩

/-! ### Retry loop lemmas -/

/-- One retryable-failure step of the loop below the retry ceiling: record
the backoff sleep and recurse with the next attempt index. -/
theorem attemptLoop_retry_step (cfg : RetryConfig) (apiCall : Nat → Except JsError ApiValue)
    (operation : String) (attempt fuel : Nat) (e : JsError)
    (hfail : tryOnce apiCall operation attempt = .error e)
    (hretry : isClientError e = false) (hne : ¬ attempt = cfg.maxRetries) :
    attemptLoop cfg apiCall operation attempt (fuel + 1) =
      ⟨(attemptLoop cfg apiCall operation (attempt + 1) fuel).result,
       (attemptLoop cfg apiCall operation (attempt + 1) fuel).calls + 1,
       backoffDelay cfg attempt :: (attemptLoop cfg apiCall operation (attempt + 1) fuel).sleeps⟩ := by
  simp [attemptLoop, hfail, hretry, hne]

/-- When every attempt fails with a retryable error, the loop started at
`attempt` with matching fuel makes exactly `fuel + 1` further invocations,
sleeps the backoff delays for attempts `attempt, …, maxRetries - 1`, and
ends by throwing the wrapped last error. -/
theorem attemptLoop_allFail (cfg : RetryConfig) (apiCall : Nat → Except JsError ApiValue)
    (operation : String) (errs : Nat → JsError)
    (hfail : ∀ k, tryOnce apiCall operation k = .error (errs k))
    (hretry : ∀ k, isClientError (errs k) = false) :
    ∀ fuel attempt, attempt + fuel = cfg.maxRetries →
      attemptLoop cfg apiCall operation attempt (fuel + 1) =
        ⟨.error (createShopifyApiError (errs cfg.maxRetries) operation), fuel + 1,
         (List.range' attempt fuel).map (backoffDelay cfg)⟩ := by
  intro fuel
  induction fuel with
  | zero =>
    intro attempt h
    have ha : attempt = cfg.maxRetries := by omega
    subst ha
    simp [attemptLoop, hfail, hretry]
  | succ fuel ih =>
    intro attempt h
    have hne : ¬ attempt = cfg.maxRetries := by omega
    have h2 : (attempt + 1) + fuel = cfg.maxRetries := by omega
    rw [attemptLoop_retry_step cfg apiCall operation attempt (fuel + 1) (errs attempt)
        (hfail attempt) (hretry attempt) hne,
      ih (attempt + 1) h2, List.range'_succ]
    simp

/-- `makeApiCall` under a thunk that always fails retryably: full outcome. -/
theorem makeApiCall_allFail (cfg : RetryConfig) (apiCall : Nat → Except JsError ApiValue)
    (operation : String) (errs : Nat → JsError)
    (hfail : ∀ k, tryOnce apiCall operation k = .error (errs k))
    (hretry : ∀ k, isClientError (errs k) = false) :
    makeApiCall cfg apiCall operation =
      ⟨.error (createShopifyApiError (errs cfg.maxRetries) operation), cfg.maxRetries + 1,
       (List.range cfg.maxRetries).map (backoffDelay cfg)⟩ := by
  have h := attemptLoop_allFail cfg apiCall operation errs hfail hretry cfg.maxRetries 0 (by omega)
  unfold makeApiCall
  rw [h, List.range_eq_range']

/-- C1: for every retry policy, a call through `makeApiCall` whose thunk
always fails with an error that is not a 4xx client error invokes the thunk
exactly `maxRetries + 1` times and then throws the `ShopifyApiError`
wrapping the last underlying error. -/
theorem C1_retry_ceiling (cfg : RetryConfig) (apiCall : Nat → Except JsError ApiValue)
    (operation : String) (errs : Nat → JsError)
    (hfail : ∀ k, apiCall k = .error (errs k))
    (hretry : ∀ k, isClientError (errs k) = false) :
    (makeApiCall cfg apiCall operation).calls = cfg.maxRetries + 1 ∧
    (makeApiCall cfg apiCall operation).result =
      .error (createShopifyApiError (errs cfg.maxRetries) operation) := by
  have hf : ∀ k, tryOnce apiCall operation k = .error (errs k) := fun k => by
    simp [tryOnce, hfail k]
  rw [makeApiCall_allFail cfg apiCall operation errs hf hretry]
  exact ⟨rfl, rfl⟩

/-- C1 witness: with `maxRetries = 2` and a thunk that always throws a 500
error, the thunk runs 3 times and the terminal error wraps it. -/
theorem C1_retry_ceiling_witness :
    (makeApiCall ⟨2, 1, 10⟩ (fun _ => .error ⟨"boom", some ⟨some 500, some "resp"⟩⟩) "op").calls = 3 ∧
    (makeApiCall ⟨2, 1, 10⟩ (fun _ => .error ⟨"boom", some ⟨some 500, some "resp"⟩⟩) "op").result =
      .error ⟨"op failed: boom", some 500, some "resp"⟩ := by
  have h := C1_retry_ceiling ⟨2, 1, 10⟩
    (fun _ => .error ⟨"boom", some ⟨some 500, some "resp"⟩⟩) "op"
    (fun _ => ⟨"boom", some ⟨some 500, some "resp"⟩⟩) (fun _ => rfl) (fun _ => rfl)
  refine ⟨h.1, ?_⟩
  rw [h.2]
  rfl

/-- C2: a thunk whose first invocation throws an error carrying an HTTP
status in `[400, 500)` is invoked exactly once; `makeApiCall` immediately
throws the client error wrapping the operation name, the underlying
message, the status and the raw response body, with no backoff sleep. -/
theorem C2_no_retry_on_4xx (cfg : RetryConfig) (apiCall : Nat → Except JsError ApiValue)
    (operation : String) (e : JsError) (r : ErrResponse) (s : Int)
    (hcall : apiCall 0 = .error e) (hresp : e.response = some r) (hstatus : r.status = some s)
    (h400 : 400 ≤ s) (h500 : s < 500) (hmsg : e.message ≠ "") :
    makeApiCall cfg apiCall operation =
      ⟨.error ⟨operation ++ " failed: " ++ e.message, some s, r.data⟩, 1, []⟩ := by
  have hce : isClientError e = true := by
    simp [isClientError, hresp, hstatus, h400, h500]
  unfold makeApiCall
  simp [attemptLoop, tryOnce, hcall, hce, createShopifyApiError, hresp, hstatus, hmsg]

/-- C2 witness: a thunk that throws a 404 with a body is invoked once and
the wrapper rethrows a `ShopifyApiError` carrying all the pieces. -/
theorem C2_no_retry_on_4xx_witness :
    makeApiCall ⟨3, 1, 10⟩ (fun _ => .error ⟨"nf", some ⟨some 404, some "body"⟩⟩) "op" =
      ⟨.error ⟨"op failed: nf", some 404, some "body"⟩, 1, []⟩ := by
  exact C2_no_retry_on_4xx ⟨3, 1, 10⟩ (fun _ => .error ⟨"nf", some ⟨some 404, some "body"⟩⟩)
    "op" ⟨"nf", some ⟨some 404, some "body"⟩⟩ ⟨some 404, some "body"⟩ 404
    rfl rfl rfl (by norm_num) (by norm_num) (by decide)

/-- C3: in a run whose thunk always fails retryably, with
`baseDelay ≤ maxDelay`, the recorded sleeps are exactly
`min(baseDelay * 2^k, maxDelay)` for `k = 0, …, maxRetries - 1`; the
sequence is non-decreasing in `k` and every delay is bounded by
`maxDelay`. -/
theorem C3_backoff_growth (cfg : RetryConfig) (apiCall : Nat → Except JsError ApiValue)
    (operation : String) (errs : Nat → JsError)
    (hfail : ∀ k, apiCall k = .error (errs k))
    (hretry : ∀ k, isClientError (errs k) = false)
    (_hbm : cfg.baseDelay ≤ cfg.maxDelay) :
    (makeApiCall cfg apiCall operation).sleeps.length = cfg.maxRetries ∧
    (∀ k (hk : k < (makeApiCall cfg apiCall operation).sleeps.length),
      (makeApiCall cfg apiCall operation).sleeps.get ⟨k, hk⟩ =
        min (cfg.baseDelay * 2 ^ k) cfg.maxDelay) ∧
    (∀ i j (hi : i < (makeApiCall cfg apiCall operation).sleeps.length)
        (hj : j < (makeApiCall cfg apiCall operation).sleeps.length), i ≤ j →
      (makeApiCall cfg apiCall operation).sleeps.get ⟨i, hi⟩ ≤
        (makeApiCall cfg apiCall operation).sleeps.get ⟨j, hj⟩) ∧
    (∀ k (hk : k < (makeApiCall cfg apiCall operation).sleeps.length),
      (makeApiCall cfg apiCall operation).sleeps.get ⟨k, hk⟩ ≤ cfg.maxDelay) := by
  have hf : ∀ k, tryOnce apiCall operation k = .error (errs k) := fun k => by
    simp [tryOnce, hfail k]
  have hrun := makeApiCall_allFail cfg apiCall operation errs hf hretry
  have hsleeps : (makeApiCall cfg apiCall operation).sleeps =
      (List.range cfg.maxRetries).map (backoffDelay cfg) := by rw [hrun]
  have hlen : (makeApiCall cfg apiCall operation).sleeps.length = cfg.maxRetries := by
    simp [hsleeps]
  have hget : ∀ k (hk : k < (makeApiCall cfg apiCall operation).sleeps.length),
      (makeApiCall cfg apiCall operation).sleeps.get ⟨k, hk⟩ =
        min (cfg.baseDelay * 2 ^ k) cfg.maxDelay := by
    intro k hk
    have hk' : k < cfg.maxRetries := by rw [← hlen]; exact hk
    simp [hsleeps, backoffDelay]
  refine ⟨hlen, hget, ?_, ?_⟩
  · intro i j hi hj hij
    rw [hget i hi, hget j hj]
    exact min_le_min (Nat.mul_le_mul_left _ (Nat.pow_le_pow_right (by norm_num) hij)) le_rfl
  · intro k hk
    rw [hget k hk]
    exact min_le_right _ _

/-- C3 witness: `maxRetries = 4`, `baseDelay = 3`, `maxDelay = 10` with an
always-failing 500 thunk: the recorded sleeps are `[3, 6, 10, 10]`. -/
theorem C3_backoff_growth_witness :
    (makeApiCall ⟨4, 3, 10⟩ (fun _ => .error ⟨"boom", some ⟨some 500, none⟩⟩) "op").sleeps.length = 4 ∧
    (makeApiCall ⟨4, 3, 10⟩ (fun _ => .error ⟨"boom", some ⟨some 500, none⟩⟩) "op").sleeps = [3, 6, 10, 10] := by
  have h := C3_backoff_growth ⟨4, 3, 10⟩ (fun _ => .error ⟨"boom", some ⟨some 500, none⟩⟩) "op"
    (fun _ => ⟨"boom", some ⟨some 500, none⟩⟩) (fun _ => rfl) (fun _ => rfl) (by norm_num)
  refine ⟨h.1, ?_⟩
  have hget := h.2.1
  decide

/-- C4 counterexample: with `maxRetries = 1`, a GraphQL call whose
transport always succeeds with a non-empty error list re-invokes the thunk
(2 invocations), refuting "the thunk is not re-invoked because of it". -/
theorem C4_counterexample :
    (makeGraphQLCall ⟨1, 1, 10⟩ (fun _ => .ok ⟨some [⟨"a"⟩, ⟨"b"⟩], {}⟩) "q").calls = 2 ∧
    ¬ (makeGraphQLCall ⟨1, 1, 10⟩ (fun _ => .ok ⟨some [⟨"a"⟩, ⟨"b"⟩], {}⟩) "q").calls = 1 := by
  decide

/-- C4 (amended): when the transport always succeeds but the body carries
a fixed non-empty error list, the thunk throws an error aggregating all
error messages joined by `', '`; that error carries no HTTP status, so the
wrapper treats it as retryable: the thunk is invoked `maxRetries + 1`
times and the terminal error wraps the aggregated message. -/
theorem C4_graphql_error_aggregation (cfg : RetryConfig)
    (transport : Nat → Except JsError GraphQLBody) (operation : String)
    (es : List GraphQLError) (datas : Nat → ApiValue)
    (hne : es ≠ [])
    (htr : ∀ k, transport k = .ok ⟨some es, datas k⟩) :
    (makeGraphQLCall cfg transport operation).calls = cfg.maxRetries + 1 ∧
    (makeGraphQLCall cfg transport operation).result =
      .error ⟨operation ++ " failed: " ++ ("GraphQL Error: " ++ joinComma (es.map GraphQLError.message)),
              none, none⟩ := by
  have hlen : 0 < es.length := List.length_pos.mpr hne
  have hf : ∀ k, tryOnce (graphQLThunk transport) operation k =
      .error ⟨"GraphQL Error: " ++ joinComma (es.map GraphQLError.message), none⟩ := by
    intro k
    simp [tryOnce, graphQLThunk, htr k, hlen]
  have hretry : ∀ _k : Nat,
      isClientError ⟨"GraphQL Error: " ++ joinComma (es.map GraphQLError.message), none⟩ = false :=
    fun _ => rfl
  have hrun := makeApiCall_allFail cfg (graphQLThunk transport) operation
    (fun _ => ⟨"GraphQL Error: " ++ joinComma (es.map GraphQLError.message), none⟩) hf hretry
  have hmsg : ("GraphQL Error: " ++ joinComma (es.map GraphQLError.message)) ≠ "" := by
    intro hc
    have h1 := congrArg String.length hc
    rw [String.length_append] at h1
    have h2 : ("GraphQL Error: " : String).length = 15 := rfl
    have h3 : ("" : String).length = 0 := rfl
    rw [h2, h3] at h1
    omega
  unfold makeGraphQLCall
  rw [hrun]
  refine ⟨rfl, ?_⟩
  simp [createShopifyApiError, hmsg]

/-- C4 amended-claim witness: two aggregated messages, `maxRetries = 1`:
2 invocations and the wrapped aggregate message. -/
theorem C4_graphql_error_aggregation_witness :
    (makeGraphQLCall ⟨1, 1, 10⟩ (fun _ => .ok ⟨some [⟨"a"⟩, ⟨"b"⟩], {}⟩) "q").calls = 2 ∧
    (makeGraphQLCall ⟨1, 1, 10⟩ (fun _ => .ok ⟨some [⟨"a"⟩, ⟨"b"⟩], {}⟩) "q").result =
      .error ⟨"q failed: GraphQL Error: a, b", none, none⟩ := by
  have h := C4_graphql_error_aggregation ⟨1, 1, 10⟩
    (fun _ => .ok ⟨some [⟨"a"⟩, ⟨"b"⟩], {}⟩) "q" [⟨"a"⟩, ⟨"b"⟩] (fun _ => {})
    (by decide) (fun _ => rfl)
  refine ⟨h.1, ?_⟩
  rw [h.2]
  rfl

/-! ### Split and decimal-digit lemmas for the ID translator -/

/-- `split` never yields an empty list of segments. -/
theorem splitOnSlash_ne_nil (s : List Char) : splitOnSlash s ≠ [] := by
  induction s with
  | nil => simp [splitOnSlash]
  | cons c cs ih =>
    by_cases hc : c = '/'
    · simp [splitOnSlash, hc]
    · simp only [splitOnSlash, hc, if_false]
      cases hsp : splitOnSlash cs with
      | nil => simp
      | cons s rest => simp

/-- The default of `getLastD` is irrelevant on a non-empty list. -/
theorem getLastD_irrel {α : Type} (l : List α) (d₁ d₂ : α) (h : l ≠ []) :
    l.getLastD d₁ = l.getLastD d₂ := by
  induction l generalizing d₁ d₂ with
  | nil => exact absurd rfl h
  | cons a l ih =>
    cases l with
    | nil => rfl
    | cons b t =>
      rw [List.getLastD_cons d₁ a (b :: t), List.getLastD_cons d₂ a (b :: t)]

/-- Unfolding `split` at a leading slash. -/
theorem splitOnSlash_cons_slash (cs : List Char) :
    splitOnSlash ('/' :: cs) = [] :: splitOnSlash cs := by
  simp [splitOnSlash]

/-- Unfolding `split` at a non-slash character, given the split of the
tail. -/
theorem splitOnSlash_cons_ne (c : Char) (cs : List Char) (hc : c ≠ '/')
    (s : List Char) (rest : List (List Char)) (hsp : splitOnSlash cs = s :: rest) :
    splitOnSlash (c :: cs) = (c :: s) :: rest := by
  simp [splitOnSlash, hc, hsp]

/-- A string containing a slash splits into at least two segments. -/
theorem splitOnSlash_length_ge_two (u v : List Char) :
    2 ≤ (splitOnSlash (u ++ '/' :: v)).length := by
  induction u with
  | nil =>
    rw [List.nil_append, splitOnSlash_cons_slash]
    have h1 : 0 < (splitOnSlash v).length := List.length_pos.mpr (splitOnSlash_ne_nil v)
    simp only [List.length_cons]
    omega
  | cons c cs ih =>
    rw [List.cons_append]
    by_cases hc : c = '/'
    · subst hc
      rw [splitOnSlash_cons_slash]
      have h1 : 0 < (splitOnSlash (cs ++ '/' :: v)).length :=
        List.length_pos.mpr (splitOnSlash_ne_nil _)
      simp only [List.length_cons]
      omega
    · obtain ⟨s, rest, hsp⟩ := List.exists_cons_of_ne_nil (splitOnSlash_ne_nil (cs ++ '/' :: v))
      rw [splitOnSlash_cons_ne c _ hc s rest hsp]
      rw [hsp] at ih
      simp only [List.length_cons] at ih ⊢
      omega

/-- The last segment of a split only depends on the text after the last
slash of the appended part. -/
theorem splitOnSlash_getLastD_append (u v : List Char) :
    (splitOnSlash (u ++ '/' :: v)).getLastD [] = (splitOnSlash v).getLastD [] := by
  induction u with
  | nil =>
    rw [List.nil_append, splitOnSlash_cons_slash]
    rw [List.getLastD_cons [] [] (splitOnSlash v)]
  | cons c cs ih =>
    rw [List.cons_append]
    by_cases hc : c = '/'
    · subst hc
      rw [splitOnSlash_cons_slash]
      rw [List.getLastD_cons [] [] (splitOnSlash (cs ++ '/' :: v))]
      exact ih
    · obtain ⟨s, rest, hsp⟩ := List.exists_cons_of_ne_nil (splitOnSlash_ne_nil (cs ++ '/' :: v))
      have hrest : rest ≠ [] := by
        have h2 := splitOnSlash_length_ge_two cs v
        rw [hsp] at h2
        simp only [List.length_cons] at h2
        intro hr
        rw [hr] at h2
        simp at h2
      rw [splitOnSlash_cons_ne c _ hc s rest hsp]
      rw [List.getLastD_cons [] (c :: s) rest]
      rw [← ih, hsp, List.getLastD_cons [] s rest]
      exact getLastD_irrel _ _ _ hrest

/-- A slash-free string splits into itself as its only segment. -/
theorem splitOnSlash_no_slash (d : List Char) (h : ∀ c ∈ d, c ≠ '/') :
    splitOnSlash d = [d] := by
  induction d with
  | nil => rfl
  | cons c cs ih =>
    have hc : c ≠ '/' := h c (List.mem_cons_self c cs)
    have hcs : ∀ x ∈ cs, x ≠ '/' := fun x hx => h x (List.mem_cons_of_mem c hx)
    simp only [splitOnSlash, hc, if_false, ih hcs]

/-- Every character of the decimal rendering of a natural number is a
decimal digit. -/
theorem natToChars_isDigit (n : Nat) : ∀ c ∈ natToChars n, c.isDigit = true := by
  intro c hc
  unfold natToChars at hc
  by_cases hn : n = 0
  · rw [if_pos hn] at hc
    simp at hc
    rw [hc]
    decide
  · rw [if_neg hn] at hc
    simp only [List.mem_map, List.mem_reverse] at hc
    obtain ⟨d, hd, hdc⟩ := hc
    have hd10 : d < 10 := Nat.digits_lt_base (by norm_num) hd
    rw [← hdc]
    unfold digitChar
    interval_cases d <;> decide

/-- The decimal rendering is never empty. -/
theorem natToChars_ne_nil (n : Nat) : natToChars n ≠ [] := by
  unfold natToChars
  by_cases hn : n = 0
  · simp [hn]
  · rw [if_neg hn]
    simp [Nat.digits_ne_nil_iff_ne_zero, hn]

/-- `digitVal` inverts `digitChar` on digit values. -/
theorem digitVal_digitChar (d : Nat) (hd : d < 10) : digitVal (digitChar d) = d := by
  interval_cases d <;> decide

/-- Horner evaluation of a reversed digit list. -/
theorem foldl_reverse_ofDigits (L : List Nat) (acc : Nat) :
    L.reverse.foldl (fun a d => a * 10 + d) acc = acc * 10 ^ L.length + Nat.ofDigits 10 L := by
  induction L generalizing acc with
  | nil => simp
  | cons d L ih =>
    simp only [List.reverse_cons, List.foldl_append, List.foldl_cons, List.foldl_nil,
      List.length_cons, Nat.ofDigits_cons, ih acc]
    ring

/-- `foldl` only depends on the function's values at list members. -/
theorem foldl_congr_mem {α β : Type} (l : List α) (f g : β → α → β) (a : β)
    (h : ∀ b x, x ∈ l → f b x = g b x) : l.foldl f a = l.foldl g a := by
  induction l generalizing a with
  | nil => rfl
  | cons x xs ih =>
    simp only [List.foldl_cons]
    rw [h a x (List.mem_cons_self x xs)]
    exact ih _ (fun b y hy => h b y (List.mem_cons_of_mem x hy))

/-- Parsing the decimal rendering of `n` recovers `n`. -/
theorem parseDigits_natToChars (n : Nat) : parseDigits (natToChars n) = n := by
  unfold natToChars
  by_cases hn : n = 0
  · simp [hn, parseDigits, digitVal]
  · rw [if_neg hn]
    unfold parseDigits
    rw [List.foldl_map]
    have hdig : ∀ d ∈ Nat.digits 10 n, d < 10 := fun d hd => Nat.digits_lt_base (by norm_num) hd
    have hcong : (Nat.digits 10 n).reverse.foldl (fun a c => a * 10 + digitVal (digitChar c)) 0 =
        (Nat.digits 10 n).reverse.foldl (fun a d => a * 10 + d) 0 := by
      apply foldl_congr_mem
      intro b d hd
      rw [digitVal_digitChar d (hdig d (List.mem_reverse.mp hd))]
    rw [hcong, foldl_reverse_ofDigits, Nat.ofDigits_digits]
    simp

/-- Every character of the decimal rendering is one of the ten digit
characters. -/
theorem natToChars_mem (n : Nat) : ∀ c ∈ natToChars n, c ∈ decimalDigitChars := by
  intro c hc
  unfold natToChars at hc
  by_cases hn : n = 0
  · rw [if_pos hn] at hc
    simp at hc
    rw [hc]
    decide
  · rw [if_neg hn] at hc
    simp only [List.mem_map, List.mem_reverse] at hc
    obtain ⟨d, hd, hdc⟩ := hc
    have hd10 : d < 10 := Nat.digits_lt_base (by norm_num) hd
    rw [← hdc]
    unfold digitChar
    interval_cases d <;> decide

/-- The relevant facts about a decimal digit character. -/
theorem digitChars_props (c : Char) (h : c ∈ decimalDigitChars) :
    c.isDigit = true ∧ jsWhitespaceChar c = false ∧ c ≠ '-' ∧ c ≠ '+' ∧ c ≠ '/' := by
  fin_cases h <;> decide

/-- `takeWhile` keeps the whole list when the predicate holds everywhere. -/
theorem takeWhile_eq_self_of_all {p : Char → Bool} (l : List Char)
    (h : ∀ c ∈ l, p c = true) : l.takeWhile p = l := by
  induction l with
  | nil => rfl
  | cons c cs ih =>
    rw [List.takeWhile_cons, h c (List.mem_cons_self c cs)]
    simp [ih (fun x hx => h x (List.mem_cons_of_mem c hx))]

/-- `parseInt` recovers a natural number from its decimal rendering. -/
theorem parseIntJS_natToChars (n : Nat) : parseIntJS (natToChars n) = some (n : Int) := by
  obtain ⟨c0, cs, hsh⟩ := List.exists_cons_of_ne_nil (natToChars_ne_nil n)
  have hmem : ∀ c ∈ natToChars n, c ∈ decimalDigitChars := natToChars_mem n
  have hp0 := digitChars_props c0 (hmem c0 (by rw [hsh]; exact List.mem_cons_self c0 cs))
  have htake : (natToChars n).takeWhile Char.isDigit = natToChars n :=
    takeWhile_eq_self_of_all _ (fun c hc => (digitChars_props c (hmem c hc)).1)
  have hparse : parseDigits (natToChars n) = n := parseDigits_natToChars n
  rw [hsh] at htake hparse ⊢
  unfold parseIntJS
  rw [List.dropWhile_cons, hp0.2.1]
  simp only [Bool.false_eq_true, if_false]
  simp only [hp0.2.2.1, hp0.2.2.2.1, if_false, htake, hparse]
  simp

/-- C5: converting a non-negative integer to a global ID (for any resource
type) and back yields the same integer:
`toRestId (toGraphQLId n t) = n`. -/
theorem C5_id_roundtrip (n : Nat) (t : List Char) :
    toRestId (toGraphQLId n t) = .ok (some (n : Int)) := by
  have hslash : ∀ c ∈ natToChars n, c ≠ '/' :=
    fun c hc => (digitChars_props c (natToChars_mem n c hc)).2.2.2.2
  have hsplit : (splitOnSlash (toGraphQLId n t)).getLastD [] = natToChars n := by
    have h1 : toGraphQLId n t = ("gid://shopify/".data ++ t) ++ '/' :: natToChars n := by
      simp [toGraphQLId]
    rw [h1, splitOnSlash_getLastD_append, splitOnSlash_no_slash (natToChars n) hslash]
    rfl
  unfold toRestId
  simp only [hsplit, natToChars_ne_nil n, if_neg, parseIntJS_natToChars n]
  simp [natToChars_ne_nil n]

/-- C6 counterexample: an input whose trailing segment is non-empty but not
parseable as an integer does not fail — `toRestId` returns the `NaN`
result of `parseInt` instead of throwing. -/
theorem C6_counterexample :
    toRestId "gid://shopify/Product/abc".data = .ok none := by
  decide

/-- C6 (amended): `toRestId` throws the `Invalid GraphQL ID format` error
exactly when the trailing segment after splitting on `/` is empty (e.g. a
trailing slash or the empty string); any non-empty trailing segment —
parseable or not — produces a returned value (`NaN` when unparseable). -/
theorem C6_malformed_iff (s : List Char) :
    (∃ m, toRestId s = .error m) ↔ (splitOnSlash s).getLastD [] = [] := by
  simp only [toRestId]
  by_cases h : (splitOnSlash s).getLastD [] = []
  · rw [if_pos h]
    simp [h]
    simpa [List.getLastD_eq_getLast?] using h
  · rw [if_neg h]
    simp [h]
    simpa [List.getLastD_eq_getLast?] using h

/-- C7: when the customer fetch succeeds, a failing metafields fetch (for
any error) still yields the customer record, with `profile_image_url` and
`assigned_product_id` both absent, and no exception surfaces. -/
theorem C7_metafield_fail_open (customer : ShopifyCustomerRec) (e : ShopifyApiError) :
    getCustomerById (.ok (some customer)) (.error e) =
      .ok (some { id := customer.id
                  first_name := jsOrStr customer.first_name ""
                  email := jsOrStr customer.email ""
                  profile_image_url := none
                  assigned_product_id := none }) := by
  rfl

/-- `o.getD false = true` exactly when `o = some true`. -/
theorem getD_false_eq_true_iff (o : Option Bool) : o.getD false = true ↔ o = some true := by
  cases o <;> simp

/-- C9: for every product payload transformed by the GraphQL product
service, the availability flag is true iff the status is `ACTIVE` and the
first variant is marked `availableForSale`; a product with no variants is
not available. -/
theorem C9_availability (p : GQLProduct) (r : ProductData)
    (h : transformGraphQLProductData p = .ok r) :
    (r.available = true ↔ (p.status = some "ACTIVE" ∧
      (p.variants.bind List.head?).bind GQLVariant.availableForSale = some true)) ∧
    (p.variants.bind List.head? = none → r.available = false) := by
  unfold transformGraphQLProductData at h
  cases hid : toRestId p.id with
  | error m =>
    rw [hid] at h
    exact absurd h (by simp)
  | ok idNum =>
    rw [hid] at h
    simp only [Except.ok.injEq] at h
    subst h
    constructor
    · simp only [Bool.and_eq_true, beq_iff_eq, getD_false_eq_true_iff]
    · intro hnone
      simp [hnone]

/-- C9 witness: the sample active product with one sellable variant. -/
theorem C9_availability_witness :
    (sampleProductData.available = true ↔ (sampleGQLProduct.status = some "ACTIVE" ∧
      (sampleGQLProduct.variants.bind List.head?).bind GQLVariant.availableForSale = some true)) ∧
    (sampleGQLProduct.variants.bind List.head? = none → sampleProductData.available = false) :=
  C9_availability sampleGQLProduct sampleProductData (by decide)

/-- C8: when the customer is found, the assigned-product step resolves to
nothing (no assigned id, or the assigned product is not resolvable) and
the default-product lookup yields nothing, the handler responds 200 with
the hardcoded sentinel product — a successful response never lacks a
product. -/
theorem C8_fallback_sentinel (uid : String) (customerData : CustomerData)
    (assignedLookup : Int → Except JsError (Option AssignedProduct)) (isProduction : Bool)
    (hne : uid ≠ "") (hval : validateUserId uid.data = true)
    (hassigned : resolveAssigned customerData assignedLookup = .ok none) :
    handleUserLanding (some uid) (.ok (some customerData)) assignedLookup none isProduction =
      ⟨200, { success := true
              data := some
                { user_id := uid
                  first_name := jsOrStrS customerData.first_name "Valued Customer"
                  profile_image_url := jsOrStr customerData.profile_image_url getDefaultProfileImage
                  assigned_product := getDefaultProductData }
              error := none }⟩ := by
  unfold handleUserLanding
  simp [hne, hval, hassigned]

/-- C8 witness: customer `John` with no assigned product id and no
upstream default product gets the sentinel product. -/
theorem C8_fallback_sentinel_witness :
    handleUserLanding (some "123") (.ok (some ⟨1, "John", "j@x", none, none⟩))
        (fun _ => .ok none) none false =
      ⟨200, { success := true
              data := some
                { user_id := "123"
                  first_name := "John"
                  profile_image_url := "/assets/default-avatar.png"
                  assigned_product := getDefaultProductData }
              error := none }⟩ := by
  have h := C8_fallback_sentinel "123" ⟨1, "John", "j@x", none, none⟩ (fun _ => .ok none) false
    (by decide) (by decide) rfl
  rw [h]
  rfl

/-- C10: once `getInstance` has produced an instance, every subsequent
`getInstance` call — with any configuration arguments — returns the same
instance and leaves the stored state unchanged. -/
theorem C10_singleton_invariant (st : Option Provider) (cfg1 : Option ShopifyApiConfig)
    (rc1 : Option PartialRetryConfig) (env1 : String → Option String)
    (inst : Provider) (st1 : Option Provider)
    (h : getInstance st cfg1 rc1 env1 = .ok (inst, st1))
    (cfg2 : Option ShopifyApiConfig) (rc2 : Option PartialRetryConfig)
    (env2 : String → Option String) :
    getInstance st1 cfg2 rc2 env2 = .ok (inst, st1) := by
  have hst1 : st1 = some inst := by
    cases st with
    | some i =>
      simp only [getInstance, Except.ok.injEq, Prod.mk.injEq] at h
      rw [← h.2, h.1]
    | none =>
      simp only [getInstance] at h
      cases hc : constructProvider (cfg1.getD (loadDefaultConfig env1)) rc1 with
      | error e =>
        rw [hc] at h
        simp at h
      | ok i =>
        rw [hc] at h
        simp only [Except.ok.injEq, Prod.mk.injEq] at h
        rw [← h.2, h.1]
  subst hst1
  rfl

/-- C10 witness: after a first construction from `sampleApiConfig`, a
second call with a different configuration and retry override returns the
original instance and state. -/
theorem C10_singleton_invariant_witness :
    getInstance (some sampleProvider) (some otherApiConfig)
        (some { maxRetries := some 9 }) (fun _ => none) =
      .ok (sampleProvider, some sampleProvider) :=
  C10_singleton_invariant none (some sampleApiConfig) none (fun _ => none)
    sampleProvider (some sampleProvider) (by decide)
    (some otherApiConfig) (some { maxRetries := some 9 }) (fun _ => none)

end LandingProxy
